import Mathlib

/-!
Verification of the Tangelo-Examples notebook repository against its
specification.  The repository consists of Jupyter notebooks that glue
together calls to the external Tangelo quantum-chemistry library and
third-party SDKs.  The few pieces of code the notebooks define themselves
(`build_hea_circuit`, `modify_circuit`, the binary-fraction energy
conversion of the QPE walkthrough, `get_charges`, ...) are embedded here,
together with an inventory of the operations the notebook cells perform,
so that the "everything is delegated to external libraries" statements of
the specification can be stated and checked formally.
-/

namespace TangeloExamples

set_option maxRecDepth 8000

/-- Shallow embedding of a Tangelo `Gate` as the notebooks construct them:
a name, an integer target qubit, an optional integer control qubit, a real
(modelled as rational) rotation parameter, and a variational flag.
Mirrors the keyword arguments used in the notebooks, e.g.
`Gate(RX, i, parameter=0.)`, `Gate(CNOT, target=i+1, control=i)`,
`Gate(RZ, t, parameter=p, is_variational=True)`. -/
structure Gate where
  name : String
  target : Nat
  control : Option Nat := none
  parameter : ℚ := 0
  is_variational : Bool := false
deriving DecidableEq, Repr

/-- Modelled from the spec: the `Circuit` class lives in the external
Tangelo library, not in this repository; the spec glossary describes a
qubit circuit as an "ordered sequence of quantum gates applied to a
register of qubits".  It is therefore modelled as the ordered list of its
gates; iterating over a circuit (`for gate in c`) yields that list in
order, and `Circuit(gates)` stores the given list. -/
structure Circuit where
  gates : List Gate
deriving DecidableEq, Repr

/-- Python list repetition `lst * d`: `d` concatenated copies of `lst`. -/
def listRepeat (l : List Gate) (d : Nat) : List Gate :=
  (List.replicate d l).flatten

/-- The local variable `rot_gates` of `build_hea_circuit`
(hands_on/T1_circuits_solved.ipynb): one layer of `RX` rotations followed
by one layer of `RZ` rotations, all with parameter 0, one per qubit. -/
def rot_gates (nq : Nat) : List Gate :=
  ((List.range nq).map fun i => { name := "RX", target := i, parameter := 0 }) ++
  ((List.range nq).map fun i => { name := "RZ", target := i, parameter := 0 })

/-- The local variable `ctrl_gates` of `build_hea_circuit`: the CNOT
ladder `Gate(CNOT, target=i+1, control=i) for i in range(nq-1)`. -/
def ctrl_gates (nq : Nat) : List Gate :=
  (List.range (nq - 1)).map fun i =>
    { name := "CNOT", target := i + 1, control := some i }

/-- The local variable `all_gates = (rot_gates + ctrl_gates)*d + rot_gates`
of `build_hea_circuit`. -/
def hea_all_gates (nq d : Nat) : List Gate :=
  listRepeat (rot_gates nq ++ ctrl_gates nq) d ++ rot_gates nq

/-- `build_hea_circuit(nq, d)` from hands_on/T1_circuits_solved.ipynb:
returns `Circuit(all_gates)`. -/
def build_hea_circuit (nq d : Nat) : Circuit :=
  { gates := hea_all_gates nq d }

/-- The loop of `modify_circuit` (hands_on/T1_circuits_solved.ipynb),
with its accumulator `new_gates`: each gate of the input is examined in
order of appearance; `H` gates are skipped (`continue`), `CNOT` gates are
appended three times (`new_gates += [gate]*3`), `RZ` gates are replaced by
`Gate(RZ, gate.target, parameter=gate.parameter/2, is_variational=True)`,
and every other gate is appended unchanged. -/
def modify_loop (new_gates : List Gate) : List Gate → List Gate
  | [] => new_gates
  | gate :: rest =>
    if gate.name = "H" then
      modify_loop new_gates rest
    else if gate.name = "CNOT" then
      modify_loop (new_gates ++ [gate, gate, gate]) rest
    else if gate.name = "RZ" then
      modify_loop (new_gates ++ [Gate.mk "RZ" gate.target none (gate.parameter / 2) true]) rest
    else
      modify_loop (new_gates ++ [gate]) rest

/-- `modify_circuit(c)` from hands_on/T1_circuits_solved.ipynb: runs the
loop above starting from the empty list and returns `Circuit(new_gates)`. -/
def modify_circuit (c : Circuit) : Circuit :=
  { gates := modify_loop [] c.gates }

/-- The per-gate effect of `modify_circuit` as the claim describes it:
`H` gates are dropped, `CNOT` gates yield three consecutive copies, `RZ`
gates yield a variational `RZ` on the same target with half the parameter,
and any other gate is kept unchanged. -/
def modify_step (gate : Gate) : List Gate :=
  if gate.name = "H" then []
  else if gate.name = "CNOT" then [gate, gate, gate]
  else if gate.name = "RZ" then
    [Gate.mk "RZ" gate.target none (gate.parameter / 2) true]
  else [gate]

/-- Python `int(k)` for a decimal digit character `k`. -/
def char_to_int (k : Char) : Nat :=
  k.toNat - 48

/-- The running sum of the generator expression
`sum(int(k)/2**(i+1) for i, k in enumerate(key))`, with `i` the current
index of `enumerate`. -/
def qpe_energy_from (i : Nat) : List Char → ℚ
  | [] => 0
  | k :: rest => (char_to_int k : ℚ) / 2 ^ (i + 1) + qpe_energy_from (i + 1) rest

/-- The binary-fraction energy conversion of the QPE cells of the
fault-tolerant hands-on notebook:
`energy = sum(int(k)/2**(i+1) for i, k in enumerate(key))`. -/
def qpe_energy (key : List Char) : ℚ :=
  qpe_energy_from 0 key

/-- The exact binary fraction whose digits after the point are the given
bitstring, written as the spec phrases it: the sum of `bit_i * 2^-(i+1)`
over the positions `i` of the string. -/
def spec_binary_fraction (key : List Char) : ℚ :=
  ((List.range key.length).map fun i =>
    (char_to_int (key.getD i '0') : ℚ) * (2 : ℚ)⁻¹ ^ (i + 1)).sum

/-- The syntactic kind of an operation a notebook code cell performs:
importing library names, setting parameters or literal data, invoking a
function or class of an external package, printing or plotting results, or
evaluating transformation/arithmetic logic defined in this repository
itself (a local `def`, comprehension or expression computing a value). -/
inductive OpKind where
  | importDecl
  | paramSet
  | externalCall
  | printPlot
  | localLogic
deriving DecidableEq, Repr

/-- The algorithmic domain an operation belongs to, following the spec:
the five delegated domains (circuit simulation, qubit mapping, variational
solving, classical-shadow tomography, problem decomposition), plus the
other activities the notebooks perform (circuit construction, quantum
phase estimation, histogram/result post-processing, input preparation,
hardware access, miscellaneous). -/
inductive Domain where
  | circuitSimulation
  | qubitMapping
  | variationalSolving
  | classicalShadow
  | problemDecomposition
  | circuitConstruction
  | phaseEstimation
  | postProcessing
  | preparation
  | hardwareAccess
  | misc
deriving DecidableEq, Repr

/-- One operation performed by a notebook code cell: the notebook it
appears in, the source fragment, the external package invoked (empty when
the operation is not an external call), its syntactic kind, its domain,
and whether it yields a molecular energy estimate. -/
structure NotebookOp where
  file : String
  op : String
  package : String
  kind : OpKind
  domain : Domain
  energyEstimate : Bool
deriving DecidableEq, Repr

/-- Inventory of the operations performed by the repository notebooks,
read off the code cells file by file. -/
def notebookOps : List NotebookOp := [
  -- hands_on/T1_circuits_solved.ipynb
  { file := "hands_on/T1_circuits_solved.ipynb",
    op := "Gate(RX/RZ/CNOT, ...) lists and Circuit(gates)",
    package := "tangelo.linq", kind := .externalCall,
    domain := .circuitConstruction, energyEstimate := false },
  { file := "hands_on/T1_circuits_solved.ipynb",
    op := "def build_hea_circuit(nq, d): all_gates = (rot_gates + ctrl_gates)*d + rot_gates",
    package := "", kind := .localLogic,
    domain := .circuitConstruction, energyEstimate := false },
  { file := "hands_on/T1_circuits_solved.ipynb",
    op := "print(c.counts); print(c.size)",
    package := "tangelo.linq", kind := .printPlot,
    domain := .postProcessing, energyEstimate := false },
  { file := "hands_on/T1_circuits_solved.ipynb",
    op := "def modify_circuit(c): drop H, triple CNOT, halve RZ parameter",
    package := "", kind := .localLogic,
    domain := .circuitConstruction, energyEstimate := false },
  { file := "hands_on/T1_circuits_solved.ipynb",
    op := "cmod.draw()",
    package := "tangelo.linq", kind := .printPlot,
    domain := .postProcessing, energyEstimate := false },
  -- hands_on/T2_simulators.ipynb
  { file := "hands_on/T2_simulators.ipynb",
    op := "get_backend(cirq/qulacs/qiskit)",
    package := "tangelo.linq", kind := .externalCall,
    domain := .circuitSimulation, energyEstimate := false },
  { file := "hands_on/T2_simulators.ipynb",
    op := "sim.simulate(c) with and without shots",
    package := "tangelo.linq", kind := .externalCall,
    domain := .circuitSimulation, energyEstimate := false },
  { file := "hands_on/T2_simulators.ipynb",
    op := "qb_op = 0.3 * QubitOperator(X0) + 0.5 * QubitOperator(Z0 Z1) + 2",
    package := "tangelo.toolboxes.operators", kind := .paramSet,
    domain := .preparation, energyEstimate := false },
  { file := "hands_on/T2_simulators.ipynb",
    op := "expectation value of qb_op from the backend",
    package := "tangelo.linq", kind := .externalCall,
    domain := .circuitSimulation, energyEstimate := false },
  { file := "hands_on/T2_simulators.ipynb",
    op := "translate_circuit / translate_operator to qiskit and cirq formats",
    package := "tangelo.linq", kind := .externalCall,
    domain := .misc, energyEstimate := false },
  -- hands_on/T4_hardware_experiments.ipynb
  { file := "hands_on/T4_hardware_experiments.ipynb",
    op := "IBMConnection, job_submit, job_results",
    package := "tangelo.linq.qpu_connection", kind := .externalCall,
    domain := .hardwareAccess, energyEstimate := false },
  { file := "hands_on/T4_hardware_experiments.ipynb",
    op := "VQESolver(vqe_options); opt_energy = vqe_solver.simulate()",
    package := "tangelo.algorithms", kind := .externalCall,
    domain := .variationalSolving, energyEstimate := true },
  { file := "hands_on/T4_hardware_experiments.ipynb",
    op := "c2 = c.copy(); circuit simplification methods",
    package := "tangelo.linq", kind := .externalCall,
    domain := .circuitConstruction, energyEstimate := false },
  { file := "hands_on/T4_hardware_experiments.ipynb",
    op := "group_qwc(qb_ham); measurement_basis_gates(basis); sim.simulate(c_full)",
    package := "tangelo", kind := .externalCall,
    domain := .circuitSimulation, energyEstimate := false },
  { file := "hands_on/T4_hardware_experiments.ipynb",
    op := "Histogram(freqs, n_shots), aggregate_histograms, filter_hist",
    package := "tangelo.toolboxes.post_processing", kind := .externalCall,
    domain := .postProcessing, energyEstimate := false },
  { file := "hands_on/T4_hardware_experiments.ipynb",
    op := "def my_predicate(bs): return bs not in [00]",
    package := "", kind := .localLogic,
    domain := .postProcessing, energyEstimate := false },
  -- examples/workflow_basics/2.qpu_connection.ipynb
  { file := "examples/workflow_basics/2.qpu_connection.ipynb",
    op := "translate_circuit(circ1, target=ionq)",
    package := "tangelo.linq", kind := .externalCall,
    domain := .hardwareAccess, energyEstimate := false },
  { file := "examples/workflow_basics/2.qpu_connection.ipynb",
    op := "BraketConnection / IBMConnection / IonQConnection / job submission",
    package := "tangelo.linq.qpu_connection", kind := .externalCall,
    domain := .hardwareAccess, energyEstimate := false },
  -- examples/problem_decomposition/qmmm.ipynb
  { file := "examples/problem_decomposition/qmmm.ipynb",
    op := "SecondQuantizedMolecule(xyz, basis); get_orbitals_excluding_homo_lumo",
    package := "tangelo", kind := .externalCall,
    domain := .preparation, energyEstimate := false },
  { file := "examples/problem_decomposition/qmmm.ipynb",
    op := "VQESolver(molecule...); e_quantum = .simulate() for glycine and zwitterion",
    package := "tangelo.algorithms.variational", kind := .externalCall,
    domain := .variationalSolving, energyEstimate := true },
  { file := "examples/problem_decomposition/qmmm.ipynb",
    op := "h2o.mean_field.analyze() Mulliken charges",
    package := "pyscf", kind := .externalCall,
    domain := .preparation, energyEstimate := false },
  { file := "examples/problem_decomposition/qmmm.ipynb",
    op := "def get_charges: tile mulliken_atomic_charges over water molecules and pair with coordinates",
    package := "", kind := .localLogic,
    domain := .preparation, energyEstimate := false },
  { file := "examples/problem_decomposition/qmmm.ipynb",
    op := "QMMMProblemDecomposition(geometry, mmpackage, charges, qmfragment).simulate()",
    package := "tangelo.problem_decomposition.qmmm", kind := .externalCall,
    domain := .problemDecomposition, energyEstimate := true },
  { file := "examples/problem_decomposition/qmmm.ipynb",
    op := "hydration energy unit conversion (e_qmmm - e_quantum) * ha_to_kcalmol * cal_to_j in print",
    package := "", kind := .localLogic,
    domain := .postProcessing, energyEstimate := false },
  -- unnamed/part_000 (fault-tolerant building blocks hands-on)
  { file := "unnamed/part_000",
    op := "sim = get_backend(cirq); sim.simulate over all basis inputs",
    package := "tangelo.linq", kind := .externalCall,
    domain := .circuitSimulation, energyEstimate := false },
  { file := "unnamed/part_000",
    op := "fermion_to_qubit_mapping(mol.fermionic_hamiltonian, JW, ...)",
    package := "tangelo.toolboxes.qubit_mappings", kind := .externalCall,
    domain := .qubitMapping, energyEstimate := false },
  { file := "unnamed/part_000",
    op := "qu_op += (0.25 + 1.137270174660903)",
    package := "", kind := .paramSet,
    domain := .preparation, energyEstimate := false },
  { file := "unnamed/part_000",
    op := "np.linalg.eigh(get_sparse_operator(qu_op).toarray()) eigenstates for overlaps",
    package := "numpy/openfermion", kind := .externalCall,
    domain := .preparation, energyEstimate := false },
  { file := "unnamed/part_000",
    op := "get_reference_circuit(...); np.dot overlap prints",
    package := "tangelo/numpy", kind := .externalCall,
    domain := .circuitConstruction, energyEstimate := false },
  { file := "unnamed/part_000",
    op := "pe_circuit = hf_circuit + Gate(H, q) layer + trotterize(...) + get_qft_circuit(...)",
    package := "tangelo.toolboxes.ansatz_generator", kind := .externalCall,
    domain := .circuitConstruction, energyEstimate := false },
  { file := "unnamed/part_000",
    op := "freqs, _ = sim.simulate(pe_circuit); Histogram(freqs); hist.remove_qubit_indices(0, 1, 2, 3)",
    package := "tangelo", kind := .externalCall,
    domain := .circuitSimulation, energyEstimate := false },
  { file := "unnamed/part_000",
    op := "energy = sum(int(k)/2**(i+1) for i, k in enumerate(key))",
    package := "", kind := .localLogic,
    domain := .phaseEstimation, energyEstimate := true },
  { file := "unnamed/part_000",
    op := "sim.simulate(pe_plus_measure, desired_meas_result=...); np.reshape post-selection and overlaps",
    package := "tangelo/numpy", kind := .externalCall,
    domain := .circuitSimulation, energyEstimate := false },
  { file := "unnamed/part_000",
    op := "QPESolver(qubit_hamiltonian, size_qpe_register, ref_state, ...); build(); energy = simulate()",
    package := "tangelo.algorithms.projective", kind := .externalCall,
    domain := .phaseEstimation, energyEstimate := true },
  { file := "unnamed/part_000",
    op := "energy = sum(int(k)/2**(i+1) for i, k in enumerate(key)) over qpe_solver.qpe_freqs",
    package := "", kind := .localLogic,
    domain := .phaseEstimation, energyEstimate := true },
  { file := "unnamed/part_000",
    op := "vec = np.sqrt(vec/np.sum(vec)); StateVector(vec).initializing_circuit(); reindex_qubits",
    package := "numpy/tangelo", kind := .externalCall,
    domain := .circuitConstruction, energyEstimate := false },
  { file := "unnamed/part_000",
    op := "get_uprep_uselect(a, make_alpha_eq_2=True); sign_flip(qubits)",
    package := "tangelo.toolboxes.circuits.lcu", kind := .externalCall,
    domain := .circuitConstruction, energyEstimate := false },
  { file := "unnamed/part_000",
    op := "def flip_on_state: circuit.inverse() + sign_flip(qubits) + circuit",
    package := "tangelo.toolboxes.circuits.lcu", kind := .externalCall,
    domain := .circuitConstruction, energyEstimate := false },
  { file := "unnamed/part_000",
    op := "amplified and unamplified circuit simulation, success_probabilities prints",
    package := "tangelo.linq", kind := .externalCall,
    domain := .circuitSimulation, energyEstimate := false },
  -- unnamed/part_001 and unnamed/part_002 (MI-FNO with QEMIST Cloud)
  { file := "unnamed/part_001",
    op := "Molecule(xyz, basis, charge, spin); HBCI(); FNO(hbci_solver, export_fragment_data=True)",
    package := "qemist_client", kind := .externalCall,
    domain := .preparation, energyEstimate := false },
  { file := "unnamed/part_001",
    op := "IncrementalDecomposition(electronic_structure_solver=fno, truncation_order=2); mi_solver.simulate(system=molecule)",
    package := "qemist_client.problem_decomposition", kind := .externalCall,
    domain := .problemDecomposition, energyEstimate := false },
  { file := "unnamed/part_001",
    op := "get_problems_url(...); loop collecting fragment problem_handle values and mo_coefficients urls",
    package := "", kind := .localLogic,
    domain := .postProcessing, energyEstimate := false },
  { file := "unnamed/part_001",
    op := "MethodOfIncrementsHelper(log_file=...); retrieve_mo_coeff; compute_fermionoperator",
    package := "tangelo.problem_decomposition", kind := .externalCall,
    domain := .problemDecomposition, energyEstimate := false },
  { file := "unnamed/part_001",
    op := "combinatorial(ferm_op, n_spinorbitals//2, n_electrons)",
    package := "tangelo.toolboxes.qubit_mappings", kind := .externalCall,
    domain := .qubitMapping, energyEstimate := false },
  { file := "unnamed/part_001",
    op := "HEA ansatz build_circuit; VQESolver(qubit_hamiltonian, ansatz); vqe.simulate()",
    package := "tangelo.algorithms.variational", kind := .externalCall,
    domain := .variationalSolving, energyEstimate := true },
  { file := "unnamed/part_002",
    op := "IncrementalDecomposition(solver=fno, truncation_order=3); BeH2_handle = mi_solver.simulate(molecule=BeH2_mol); get_results(BeH2_handle)",
    package := "qemist_client", kind := .externalCall,
    domain := .problemDecomposition, energyEstimate := true },
  { file := "unnamed/part_002",
    op := "MIFNOHelper(mifno_log_file=...); retrieve_mo_coeff; compute_fermionoperator; fermion_to_qubit_mapping(scBK)",
    package := "tangelo", kind := .externalCall,
    domain := .qubitMapping, energyEstimate := false },
  { file := "unnamed/part_002",
    op := "QITESolver(qubit_hamiltonian, ...); qite.build(); qite.simulate()",
    package := "tangelo.algorithms.projective", kind := .externalCall,
    domain := .variationalSolving, energyEstimate := true },
  { file := "unnamed/part_002",
    op := "e = fno_fragments.mi_summation(fragment energies)",
    package := "tangelo.problem_decomposition", kind := .externalCall,
    domain := .problemDecomposition, energyEstimate := true },
  -- unnamed/part_003 (noisy simulation)
  { file := "unnamed/part_003",
    op := "NoiseModel(); nm.add_quantum_error(gate, pauli/depol, probabilities)",
    package := "tangelo.linq.noisy_simulation", kind := .externalCall,
    domain := .preparation, energyEstimate := false },
  { file := "unnamed/part_003",
    op := "get_backend(target, n_shots, noise_model); s.simulate(c)",
    package := "tangelo.linq", kind := .externalCall,
    domain := .circuitSimulation, energyEstimate := false },
  { file := "unnamed/part_003",
    op := "def ladder_gates(n_qubits, theta, n_repetitions): H layer + CNOT ladder + RY + reversed CNOT ladder, repeated",
    package := "", kind := .localLogic,
    domain := .circuitConstruction, energyEstimate := false },
  { file := "unnamed/part_003",
    op := "get_qiskit_noise_model(nm); translate_circuit noisy variants",
    package := "tangelo.linq.noisy_simulation", kind := .externalCall,
    domain := .misc, energyEstimate := false },
  -- unnamed/part_004 (classical shadows)
  { file := "unnamed/part_004",
    op := "qubit_ham = fermion_to_qubit_mapping(mol_H2_321g.fermionic_hamiltonian, scBK, ...)",
    package := "tangelo.toolboxes.qubit_mappings", kind := .externalCall,
    domain := .qubitMapping, energyEstimate := false },
  { file := "unnamed/part_004",
    op := "QCC(mol_H2_321g, ...); ansatz.build_circuit()",
    package := "tangelo.toolboxes.ansatz_generator", kind := .externalCall,
    domain := .circuitConstruction, energyEstimate := false },
  { file := "unnamed/part_004",
    op := "VQESolver(qubit_hamiltonian, ansatz); vqe.build(); energy_ref = vqe.simulate()",
    package := "tangelo.algorithms.variational", kind := .externalCall,
    domain := .variationalSolving, energyEstimate := true },
  { file := "unnamed/part_004",
    op := "RandomizedClassicalShadow(vqe.optimal_circuit); build; simulate; get_observable(qubit_ham)",
    package := "tangelo.toolboxes.measurements", kind := .externalCall,
    domain := .classicalShadow, energyEstimate := true },
  { file := "unnamed/part_004",
    op := "DerandomizedClassicalShadow(vqe.optimal_circuit); build; simulate; get_observable(qubit_ham)",
    package := "tangelo.toolboxes.measurements", kind := .externalCall,
    domain := .classicalShadow, energyEstimate := true },
  { file := "unnamed/part_004",
    op := "AdaptiveClassicalShadow(vqe.optimal_circuit); build; simulate; get_observable(qubit_ham)",
    package := "tangelo.toolboxes.measurements", kind := .externalCall,
    domain := .classicalShadow, energyEstimate := true },
  { file := "unnamed/part_004",
    op := "group_qwc(qubit_ham); basis circuits; backend.simulate",
    package := "tangelo.toolboxes.measurements", kind := .externalCall,
    domain := .circuitSimulation, energyEstimate := false },
  { file := "unnamed/part_004",
    op := "n_shots_per_basis = round(n_shots_budget / len(qubitwise_measurements))",
    package := "", kind := .localLogic,
    domain := .preparation, energyEstimate := false },
  { file := "unnamed/part_004",
    op := "energy_shots = exp_value_from_measurement_bases(qubitwise_measurements, qubitwise_results)",
    package := "tangelo.toolboxes.measurements", kind := .externalCall,
    domain := .postProcessing, energyEstimate := true },
  { file := "unnamed/part_004",
    op := "boxplot of preran shadow data with matplotlib",
    package := "matplotlib/numpy", kind := .printPlot,
    domain := .postProcessing, energyEstimate := false }
]

/-- An operation is pure glue in the sense of the spec: an import, a
parameter or literal-data assignment, a call into an external package, or
printing/plotting of results. -/
def isGlue (o : NotebookOp) : Bool :=
  o.kind ≠ OpKind.localLogic

/-- The five algorithmic domains the spec declares fully delegated to
external libraries. -/
def delegatedDomains : List Domain :=
  [.circuitSimulation, .qubitMapping, .variationalSolving,
   .classicalShadow, .problemDecomposition]

/-- The locally-defined helper computations the notebooks contain: the
source fragments of every inventory operation whose logic is defined in
this repository rather than in an external package. -/
def localHelperOps : List String :=
  ["def build_hea_circuit(nq, d): all_gates = (rot_gates + ctrl_gates)*d + rot_gates",
   "def modify_circuit(c): drop H, triple CNOT, halve RZ parameter",
   "def my_predicate(bs): return bs not in [00]",
   "def get_charges: tile mulliken_atomic_charges over water molecules and pair with coordinates",
   "hydration energy unit conversion (e_qmmm - e_quantum) * ha_to_kcalmol * cal_to_j in print",
   "energy = sum(int(k)/2**(i+1) for i, k in enumerate(key))",
   "energy = sum(int(k)/2**(i+1) for i, k in enumerate(key)) over qpe_solver.qpe_freqs",
   "get_problems_url(...); loop collecting fragment problem_handle values and mo_coefficients urls",
   "def ladder_gates(n_qubits, theta, n_repetitions): H layer + CNOT ladder + RY + reversed CNOT ladder, repeated",
   "n_shots_per_basis = round(n_shots_budget / len(qubitwise_measurements))"]

/-! ### Helper lemmas about the embedded notebook functions -/

/-- The accumulator-passing loop of `modify_circuit` computes the
concatenation of the per-gate expansions, in order of appearance. -/
theorem modify_loop_eq (acc gs : List Gate) :
    modify_loop acc gs = acc ++ gs.flatMap modify_step := by
  induction gs generalizing acc with
  | nil => simp [modify_loop]
  | cons g rest ih =>
    by_cases hH : g.name = "H"
    · simp [modify_loop, modify_step, hH, ih]
    · by_cases hC : g.name = "CNOT"
      · simp [modify_loop, modify_step, hH, hC, ih]
      · by_cases hZ : g.name = "RZ"
        · simp [modify_loop, modify_step, hH, hC, hZ, ih]
        · simp [modify_loop, modify_step, hH, hC, hZ, ih]

/-- Every gate produced by a single `modify_step` has a name other
than H. -/
theorem modify_step_no_H (g g' : Gate) (h : g' ∈ modify_step g) :
    g'.name ≠ "H" := by
  by_cases hH : g.name = "H"
  · simp [modify_step, hH] at h
  · by_cases hC : g.name = "CNOT"
    · simp [modify_step, hH, hC] at h
      simp [h, hC]
    · by_cases hZ : g.name = "RZ"
      · simp [modify_step, hH, hC, hZ] at h
        simp [h]
      · simp [modify_step, hH, hC, hZ] at h
        simp [h, hH]

/-- Gate counting used by the notebooks (`c.counts`): the number of gates
of a circuit bearing a given name. -/
def nameCount (gs : List Gate) (s : String) : Nat :=
  gs.countP fun g => g.name == s

theorem countP_listRepeat (l : List Gate) (d : Nat) (p : Gate → Bool) :
    (listRepeat l d).countP p = d * l.countP p := by
  induction d with
  | zero => simp [listRepeat]
  | succ n ih =>
    simp only [listRepeat, List.replicate_succ, List.flatten_cons,
      List.countP_append] at *
    rw [ih, Nat.succ_mul, Nat.add_comm]

theorem length_listRepeat (l : List Gate) (d : Nat) :
    (listRepeat l d).length = d * l.length := by
  induction d with
  | zero => simp [listRepeat]
  | succ n ih =>
    simp only [listRepeat, List.replicate_succ, List.flatten_cons,
      List.length_append] at *
    rw [ih, Nat.succ_mul, Nat.add_comm]

theorem mem_listRepeat {l : List Gate} {d : Nat} {g : Gate}
    (h : g ∈ listRepeat l d) : g ∈ l := by
  simp only [listRepeat, List.mem_flatten] at h
  obtain ⟨l', hl', hg⟩ := h
  rwa [(List.eq_of_mem_replicate hl' : l' = l)] at hg

theorem rot_gates_count_RX (nq : Nat) :
    nameCount (rot_gates nq) "RX" = nq := by
  simp [nameCount, rot_gates, List.countP_append, List.countP_map,
    Function.comp_def]

theorem rot_gates_count_RZ (nq : Nat) :
    nameCount (rot_gates nq) "RZ" = nq := by
  simp [nameCount, rot_gates, List.countP_append, List.countP_map,
    Function.comp_def]

theorem rot_gates_count_CNOT (nq : Nat) :
    nameCount (rot_gates nq) "CNOT" = 0 := by
  simp [nameCount, rot_gates, List.countP_append, List.countP_map,
    Function.comp_def]

theorem ctrl_gates_count_CNOT (nq : Nat) :
    nameCount (ctrl_gates nq) "CNOT" = nq - 1 := by
  simp [nameCount, ctrl_gates, List.countP_map,
    Function.comp_def]

theorem ctrl_gates_count_RX (nq : Nat) :
    nameCount (ctrl_gates nq) "RX" = 0 := by
  simp [nameCount, ctrl_gates, List.countP_map,
    Function.comp_def]

theorem ctrl_gates_count_RZ (nq : Nat) :
    nameCount (ctrl_gates nq) "RZ" = 0 := by
  simp [nameCount, ctrl_gates, List.countP_map,
    Function.comp_def]

theorem rot_gates_length (nq : Nat) : (rot_gates nq).length = 2 * nq := by
  simp [rot_gates, Nat.two_mul]

theorem ctrl_gates_length (nq : Nat) : (ctrl_gates nq).length = nq - 1 := by
  simp [ctrl_gates]

theorem mem_rot_gates {nq : Nat} {g : Gate} (h : g ∈ rot_gates nq) :
    (g.name = "RX" ∨ g.name = "RZ") ∧ g.parameter = 0 := by
  simp only [rot_gates, List.mem_append, List.mem_map, List.mem_range] at h
  rcases h with ⟨i, _, rfl⟩ | ⟨i, _, rfl⟩ <;> simp

theorem mem_ctrl_gates {nq : Nat} {g : Gate} (h : g ∈ ctrl_gates nq) :
    g.name = "CNOT" ∧ ∃ i, i < nq - 1 ∧ g.target = i + 1 ∧ g.control = some i := by
  simp only [ctrl_gates, List.mem_map, List.mem_range] at h
  obtain ⟨i, hi, rfl⟩ := h
  exact ⟨rfl, i, hi, rfl, rfl⟩

theorem char_to_int_le_one {k : Char} (h : k = '0' ∨ k = '1') :
    char_to_int k ≤ 1 := by
  rcases h with rfl | rfl <;> decide

theorem qpe_energy_from_succ (i : Nat) (key : List Char) :
    qpe_energy_from (i + 1) key = (2 : ℚ)⁻¹ * qpe_energy_from i key := by
  induction key generalizing i with
  | nil => simp [qpe_energy_from]
  | cons k rest ih =>
    simp only [qpe_energy_from, ih (i + 1), mul_add]
    congr 1
    rw [div_eq_mul_inv, div_eq_mul_inv, pow_succ]
    ring

/-- The binary-fraction conversion is nonnegative and below one on
bitstrings. -/
theorem qpe_energy_bounds (key : List Char)
    (h : ∀ k ∈ key, k = '0' ∨ k = '1') :
    0 ≤ qpe_energy key ∧ qpe_energy key < 1 := by
  induction key with
  | nil => simp [qpe_energy, qpe_energy_from]
  | cons k rest ih =>
    obtain ⟨h0, h1⟩ := ih fun c hc => h c (List.mem_cons_of_mem _ hc)
    have hk : (char_to_int k : ℚ) ≤ 1 := by
      exact_mod_cast char_to_int_le_one (h k (List.mem_cons_self _ _))
    have hk0 : (0 : ℚ) ≤ (char_to_int k : ℚ) := by positivity
    have hrw : qpe_energy (k :: rest) =
        (char_to_int k : ℚ) / 2 + (2 : ℚ)⁻¹ * qpe_energy rest := by
      simp [qpe_energy, qpe_energy_from, qpe_energy_from_succ]
    constructor
    · rw [hrw]; positivity
    · rw [hrw]
      have : (char_to_int k : ℚ) / 2 ≤ 1 / 2 := by linarith
      have : (2 : ℚ)⁻¹ * qpe_energy rest < 1 / 2 := by
        rw [inv_eq_one_div]
        linarith
      linarith

/-- The notebook conversion agrees with the spec-worded binary fraction. -/
theorem qpe_energy_eq_spec (key : List Char) :
    qpe_energy key = spec_binary_fraction key := by
  induction key with
  | nil => simp [qpe_energy, qpe_energy_from, spec_binary_fraction]
  | cons k rest ih =>
    have hqpe : qpe_energy (k :: rest) =
        (char_to_int k : ℚ) * (2 : ℚ)⁻¹ + (2 : ℚ)⁻¹ * qpe_energy rest := by
      simp [qpe_energy, qpe_energy_from, qpe_energy_from_succ,
        div_eq_mul_inv]
    have hspec : spec_binary_fraction (k :: rest) =
        (char_to_int k : ℚ) * (2 : ℚ)⁻¹ +
          (2 : ℚ)⁻¹ * spec_binary_fraction rest := by
      simp only [spec_binary_fraction, List.length_cons,
        List.range_succ_eq_map, List.map_cons, List.sum_cons, List.map_map]
      congr 1
      · simp
      · rw [← List.sum_map_mul_left]
        refine congrArg List.sum (List.map_congr_left fun i _ => ?_)
        simp only [Function.comp_def, List.getD_cons_succ, pow_succ]
        ring
    rw [hqpe, hspec, ih]

/-! ### Distinguished inventory entries used when instantiating the
claim theorems at concrete operations -/

/-- The binary-fraction energy conversion of the QPE walkthrough cell of
unnamed/part_000, as catalogued in `notebookOps`. -/
def qpeConversionOp : NotebookOp :=
  { file := "unnamed/part_000",
    op := "energy = sum(int(k)/2**(i+1) for i, k in enumerate(key))",
    package := "", kind := .localLogic,
    domain := .phaseEstimation, energyEstimate := true }

/-- The Jordan-Wigner qubit-mapping call of unnamed/part_000, as
catalogued in `notebookOps`. -/
def jwMappingOp : NotebookOp :=
  { file := "unnamed/part_000",
    op := "fermion_to_qubit_mapping(mol.fermionic_hamiltonian, JW, ...)",
    package := "tangelo.toolboxes.qubit_mappings", kind := .externalCall,
    domain := .qubitMapping, energyEstimate := false }

/-- The VQE ground-state energy computation of
hands_on/T4_hardware_experiments.ipynb, as catalogued in `notebookOps`. -/
def vqeSolverOp : NotebookOp :=
  { file := "hands_on/T4_hardware_experiments.ipynb",
    op := "VQESolver(vqe_options); opt_energy = vqe_solver.simulate()",
    package := "tangelo.algorithms", kind := .externalCall,
    domain := .variationalSolving, energyEstimate := true }

/-- The QM/MM decomposition run of
examples/problem_decomposition/qmmm.ipynb, as catalogued in
`notebookOps`. -/
def qmmmOp : NotebookOp :=
  { file := "examples/problem_decomposition/qmmm.ipynb",
    op := "QMMMProblemDecomposition(geometry, mmpackage, charges, qmfragment).simulate()",
    package := "tangelo.problem_decomposition.qmmm", kind := .externalCall,
    domain := .problemDecomposition, energyEstimate := true }

/-- The two occurrences of the repository-defined bitstring-to-energy
conversion (the only energy estimates not produced by an external call). -/
def binaryFractionConversions : List String :=
  ["energy = sum(int(k)/2**(i+1) for i, k in enumerate(key))",
   "energy = sum(int(k)/2**(i+1) for i, k in enumerate(key)) over qpe_solver.qpe_freqs"]

/-! ### Claim theorems -/

/-- C1, counterexample: it is not the case that every computation the
notebooks perform is glue (imports, parameter setting, external-library
calls, printing/plotting): the inventory contains operations whose
transformation or arithmetic logic is defined in this repository itself
(e.g. the binary-fraction energy conversion and `modify_circuit`), and
`modify_circuit` really does perform an original transformation: on the
concrete one-gate circuit `Circuit([Gate(H, 0)])` it returns a different
circuit. -/
theorem claim_C1_counterexample :
    (¬ ∀ o ∈ notebookOps, isGlue o = true) ∧
    modify_circuit (Circuit.mk [Gate.mk "H" 0 none 0 false]) ≠
      Circuit.mk [Gate.mk "H" 0 none 0 false] := by
  exact ⟨by decide, by decide⟩

/-- C1, amended: every operation of the notebook inventory is glue
(importing library classes, setting parameters, calling external-library
entry points, printing/plotting), except for a short known list of small
locally-defined helper computations (circuit-assembly helpers, the gate
rewriting of modify_circuit, the binary-fraction energy conversions, the
charge-list preparation get_charges, shot allocation, unit conversion and
result marshalling), which are original transformation or arithmetic
logic defined in this repository. -/
theorem claim_C1_glue_except_helpers :
    ∀ o ∈ notebookOps, o.kind = OpKind.localLogic → o.op ∈ localHelperOps := by
  decide

/-- Witness for C1 (amended) at the QPE binary-fraction conversion. -/
theorem claim_C1_glue_except_helpers_witness :
    (qpeConversionOp ∈ notebookOps ∧ qpeConversionOp.kind = OpKind.localLogic) ∧
    qpeConversionOp.op ∈ localHelperOps :=
  ⟨⟨by decide, by decide⟩,
    claim_C1_glue_except_helpers qpeConversionOp (by decide) (by decide)⟩

/-- C2: in each of the five domains the spec declares delegated (circuit
simulation, qubit mapping, variational solving, classical-shadow
tomography, problem decomposition), every operation of the notebook
inventory is an invocation of an external package, never logic defined in
this repository. -/
theorem claim_C2_delegated_domains :
    ∀ o ∈ notebookOps, o.domain ∈ delegatedDomains →
      o.kind = OpKind.externalCall := by
  decide

/-- Witness for C2 at the Jordan-Wigner qubit-mapping call. -/
theorem claim_C2_delegated_domains_witness :
    (jwMappingOp ∈ notebookOps ∧ jwMappingOp.domain ∈ delegatedDomains) ∧
    jwMappingOp.kind = OpKind.externalCall :=
  ⟨⟨by decide, by decide⟩,
    claim_C2_delegated_domains jwMappingOp (by decide) (by decide)⟩

/-- C4, counterexample: it is not the case that every energy estimate a
notebook obtains comes from an external solver entry point: the QPE
walkthrough of unnamed/part_000 converts measured bitstrings to energies
with arithmetic defined in the notebook itself
(`energy = sum(int(k)/2**(i+1) for i, k in enumerate(key))`). -/
theorem claim_C4_counterexample :
    ¬ (∀ o ∈ notebookOps, o.energyEstimate = true →
        o.kind = OpKind.externalCall) := by
  decide

/-- C4, amended: every energy estimate a notebook obtains comes from an
external solver entry point (VQESolver, QPESolver, QITESolver, classical
shadows, decomposition solvers, ...), except the QPE sections, which
additionally convert measured bitstrings to energies with the notebooks'
own binary-fraction arithmetic. -/
theorem claim_C4_energy_estimates :
    ∀ o ∈ notebookOps, o.energyEstimate = true →
      o.kind = OpKind.externalCall ∨ o.op ∈ binaryFractionConversions := by
  decide

/-- Witness for C4 (amended) at the VQE energy computation of the
hardware-experiments hands-on. -/
theorem claim_C4_energy_estimates_witness :
    (vqeSolverOp ∈ notebookOps ∧ vqeSolverOp.energyEstimate = true) ∧
    (vqeSolverOp.kind = OpKind.externalCall ∨
      vqeSolverOp.op ∈ binaryFractionConversions) :=
  ⟨⟨by decide, by decide⟩,
    claim_C4_energy_estimates vqeSolverOp (by decide) (by decide)⟩

/-- C5: every problem-decomposition computation the notebooks perform
(MI-FNO incremental decomposition and recombination, QM/MM electrostatic
embedding) is a call into an external package; no part of the
decomposition computation is defined in this repository. -/
theorem claim_C5_decomposition_external :
    ∀ o ∈ notebookOps, o.domain = Domain.problemDecomposition →
      o.kind = OpKind.externalCall ∧ o.package ≠ "" := by
  decide

/-- Witness for C5 at the QM/MM decomposition run. -/
theorem claim_C5_decomposition_external_witness :
    (qmmmOp ∈ notebookOps ∧ qmmmOp.domain = Domain.problemDecomposition) ∧
    (qmmmOp.kind = OpKind.externalCall ∧ qmmmOp.package ≠ "") :=
  ⟨⟨by decide, by decide⟩,
    claim_C5_decomposition_external qmmmOp (by decide) (by decide)⟩

/-- C3: a qubit circuit is an ordered sequence of gates: building a
circuit from a gate list and iterating over it returns exactly that list,
in the same order; consequently `build_hea_circuit` returns the circuit
holding its construction-order gate list `all_gates`, and the loop of
`modify_circuit` visits exactly the input circuit's gate list in order of
appearance. -/
theorem claim_C3_circuit_roundtrip :
    (∀ gs : List Gate, (Circuit.mk gs).gates = gs) ∧
    (∀ nq d : Nat, build_hea_circuit nq d = Circuit.mk (hea_all_gates nq d)) ∧
    (∀ c : Circuit, (modify_circuit c).gates = modify_loop [] c.gates) :=
  ⟨fun _ => rfl, fun _ _ => rfl, fun _ => rfl⟩

/-- C6: `modify_circuit` expands each gate of the input, in order of
appearance, by the per-gate rule `modify_step` (an H gate yields nothing;
a CNOT gate yields three consecutive copies of itself; an RZ gate yields
a variational RZ on the same target with half the parameter; any other
gate is kept unchanged), and the result contains no H gate.  The input
circuit itself is untouched: the output is a freshly built circuit and,
in this pure embedding, `c` denotes the same value before and after. -/
theorem claim_C6_modify_circuit (c : Circuit) :
    (modify_circuit c).gates = c.gates.flatMap modify_step ∧
    ∀ g ∈ (modify_circuit c).gates, g.name ≠ "H" := by
  have h : (modify_circuit c).gates = c.gates.flatMap modify_step := by
    simpa [modify_circuit] using modify_loop_eq [] c.gates
  refine ⟨h, fun g hg => ?_⟩
  rw [h, List.mem_flatMap] at hg
  obtain ⟨a, _, ha⟩ := hg
  exact modify_step_no_H a g ha

theorem nameCount_append (l1 l2 : List Gate) (s : String) :
    nameCount (l1 ++ l2) s = nameCount l1 s + nameCount l2 s :=
  List.countP_append _ _ _

theorem nameCount_listRepeat (l : List Gate) (d : Nat) (s : String) :
    nameCount (listRepeat l d) s = d * nameCount l s :=
  countP_listRepeat l d _

/-- C7: for `nq >= 1` qubits and depth `d`, `build_hea_circuit(nq, d)`
contains exactly `(d+1)*nq` RX gates, `(d+1)*nq` RZ gates and `d*(nq-1)`
CNOT gates, `(d+1)*2*nq + d*(nq-1)` gates in total; every rotation gate
has parameter 0 and every CNOT targets `i+1` with control `i` for some
`i < nq-1`. -/
theorem claim_C7_build_hea_circuit (nq d : Nat) (h : 1 ≤ nq) :
    nameCount (build_hea_circuit nq d).gates "RX" = (d + 1) * nq ∧
    nameCount (build_hea_circuit nq d).gates "RZ" = (d + 1) * nq ∧
    nameCount (build_hea_circuit nq d).gates "CNOT" = d * (nq - 1) ∧
    (build_hea_circuit nq d).gates.length = (d + 1) * 2 * nq + d * (nq - 1) ∧
    (∀ g ∈ (build_hea_circuit nq d).gates,
      (g.name = "RX" ∨ g.name = "RZ") → g.parameter = 0) ∧
    (∀ g ∈ (build_hea_circuit nq d).gates, g.name = "CNOT" →
      ∃ i, i < nq - 1 ∧ g.target = i + 1 ∧ g.control = some i) := by
  have hmem : ∀ g ∈ (build_hea_circuit nq d).gates,
      g ∈ rot_gates nq ∨ g ∈ ctrl_gates nq := by
    intro g hg
    simp only [build_hea_circuit, hea_all_gates, List.mem_append] at hg
    rcases hg with hg | hg
    · have := mem_listRepeat hg
      rcases List.mem_append.mp this with h1 | h2
      · exact Or.inl h1
      · exact Or.inr h2
    · exact Or.inl hg
  refine ⟨?_, ?_, ?_, ?_, ?_, ?_⟩
  · show nameCount (hea_all_gates nq d) "RX" = _
    rw [hea_all_gates, nameCount_append, nameCount_listRepeat,
      nameCount_append, rot_gates_count_RX, ctrl_gates_count_RX]
    ring
  · show nameCount (hea_all_gates nq d) "RZ" = _
    rw [hea_all_gates, nameCount_append, nameCount_listRepeat,
      nameCount_append, rot_gates_count_RZ, ctrl_gates_count_RZ]
    ring
  · show nameCount (hea_all_gates nq d) "CNOT" = _
    rw [hea_all_gates, nameCount_append, nameCount_listRepeat,
      nameCount_append, rot_gates_count_CNOT, ctrl_gates_count_CNOT]
    ring
  · show (hea_all_gates nq d).length = _
    rw [hea_all_gates, List.length_append, length_listRepeat,
      List.length_append, rot_gates_length, ctrl_gates_length]
    ring
  · intro g hg hname
    rcases hmem g hg with hrot | hctrl
    · exact (mem_rot_gates hrot).2
    · rcases hname with hx | hz
      · rw [(mem_ctrl_gates hctrl).1] at hx
        exact absurd hx (by decide)
      · rw [(mem_ctrl_gates hctrl).1] at hz
        exact absurd hz (by decide)
  · intro g hg hname
    rcases hmem g hg with hrot | hctrl
    · rcases (mem_rot_gates hrot).1 with hx | hz
      · rw [hx] at hname
        exact absurd hname (by decide)
      · rw [hz] at hname
        exact absurd hname (by decide)
    · exact (mem_ctrl_gates hctrl).2

/-- Witness for C7 at the notebook's own check `nq=3, d=2`, matching the
printed counts RX: 9, RZ: 9, CNOT: 4 and size 22. -/
theorem claim_C7_build_hea_circuit_witness :
    1 ≤ 3 ∧
    nameCount (build_hea_circuit 3 2).gates "RX" = 9 ∧
    nameCount (build_hea_circuit 3 2).gates "RZ" = 9 ∧
    nameCount (build_hea_circuit 3 2).gates "CNOT" = 4 ∧
    (build_hea_circuit 3 2).gates.length = 22 :=
  ⟨by decide,
    (claim_C7_build_hea_circuit 3 2 (by decide)).1,
    (claim_C7_build_hea_circuit 3 2 (by decide)).2.1,
    (claim_C7_build_hea_circuit 3 2 (by decide)).2.2.1,
    (claim_C7_build_hea_circuit 3 2 (by decide)).2.2.2.1⟩

/-- C8: on every bitstring over the characters 0 and 1, the notebooks'
conversion `energy = sum(int(k)/2**(i+1) for i, k in enumerate(key))`
equals the exact binary fraction whose post-point digits are the
characters of the key, lies in the half-open interval [0, 1), and maps
the string 010 to exactly 0.25. -/
theorem claim_C8_binary_fraction_energy (key : List Char)
    (h : ∀ k ∈ key, k = '0' ∨ k = '1') :
    qpe_energy key = spec_binary_fraction key ∧
    0 ≤ qpe_energy key ∧ qpe_energy key < 1 ∧
    qpe_energy ("010".toList) = 1 / 4 :=
  ⟨qpe_energy_eq_spec key, (qpe_energy_bounds key h).1,
    (qpe_energy_bounds key h).2, by
      have hl : ("010".toList) = ['0', '1', '0'] := rfl
      have h0 : char_to_int '0' = 0 := rfl
      have h1 : char_to_int '1' = 1 := rfl
      rw [hl]
      simp only [qpe_energy, qpe_energy_from, h0, h1]
      norm_num⟩

/-- Witness for C8 at the QPE register readout 010 expected by the
notebook for the shifted H2 ground state. -/
theorem claim_C8_binary_fraction_energy_witness :
    (∀ k ∈ ("010".toList), k = '0' ∨ k = '1') ∧
    (qpe_energy ("010".toList) = spec_binary_fraction ("010".toList) ∧
     0 ≤ qpe_energy ("010".toList) ∧ qpe_energy ("010".toList) < 1 ∧
     qpe_energy ("010".toList) = 1 / 4) :=
  ⟨by decide, claim_C8_binary_fraction_energy ("010".toList) (by decide)⟩

end TangeloExamples
